import Mathlib

/-!
Verification of the fraud-detection inference pipeline
(`src/api.py`, `src/basemodel.py`).

The development shallowly embeds the pipeline: the pydantic request
schema `InputData` (basemodel.py), the feature transformer
`transform_input` (api.py), and the `/api/predict` handler `predict`
(api.py), together with the calendar arithmetic of CPython's
`datetime` that `transform_input` relies on.
-/

namespace Fraud

/-- Naive calendar date-time, the fields of a Python `datetime` object
(no timezone info, as the system works with naive datetimes). -/
structure DateTime where
  year : Nat
  month : Nat
  day : Nat
  hour : Nat
  minute : Nat
  second : Nat
  deriving DecidableEq, Repr

/-- Gregorian leap-year rule, as in CPython `datetime._is_leap`. -/
def isLeap (y : Nat) : Bool :=
  (y % 4 == 0 && y % 100 != 0) || y % 400 == 0

/-- Days in a month, as in CPython `datetime._days_in_month`. -/
def daysInMonth (y m : Nat) : Nat :=
  if m = 2 then (if isLeap y then 29 else 28)
  else if m = 4 ∨ m = 6 ∨ m = 9 ∨ m = 11 then 30
  else 31

/-- Days in all years strictly before year `y`, as in CPython
`datetime._days_before_year` (year 1 is the first year). -/
def daysBeforeYear (y : Nat) : Nat :=
  let n := y - 1
  365 * n + n / 4 - n / 100 + n / 400

/-- Days in year `y` strictly before month `m`, as in CPython
`datetime._days_before_month` (cumulative month lengths plus the
leap-day correction after February). -/
def daysBeforeMonth (y m : Nat) : Nat :=
  (match m with
   | 1 => 0 | 2 => 31 | 3 => 59 | 4 => 90 | 5 => 120 | 6 => 151
   | 7 => 181 | 8 => 212 | 9 => 243 | 10 => 273 | 11 => 304 | 12 => 334
   | _ => 0)
  + (if 2 < m ∧ isLeap y then 1 else 0)

/-- Proleptic-Gregorian ordinal of a date, as in CPython
`datetime._ymd2ord`: January 1 of year 1 has ordinal 1. -/
def toordinal (y m d : Nat) : Nat :=
  daysBeforeYear y + daysBeforeMonth y m + d

/-- `datetime.weekday()`: Monday is 0, Sunday is 6.  CPython computes
it as `(toordinal() + 6) % 7` (ordinal 1, January 1 of year 1, is a
Monday). -/
def DateTime.weekday (d : DateTime) : Nat :=
  (toordinal d.year d.month d.day + 6) % 7

/-- The validity invariant that the CPython `datetime` constructor
enforces on its fields. -/
def DateTime.Valid (d : DateTime) : Prop :=
  1 ≤ d.year ∧ d.year ≤ 9999 ∧ 1 ≤ d.month ∧ d.month ≤ 12 ∧
  1 ≤ d.day ∧ d.day ≤ daysInMonth d.year d.month ∧
  d.hour ≤ 23 ∧ d.minute ≤ 59 ∧ d.second ≤ 59

instance (d : DateTime) : Decidable d.Valid := by
  unfold DateTime.Valid; infer_instance

/-- Interpret four consecutive decimal digits, if that is what the
characters are. -/
def digits4 (a b c d : Char) : Option Nat :=
  if a.isDigit ∧ b.isDigit ∧ c.isDigit ∧ d.isDigit then
    some ((a.toNat - 48) * 1000 + (b.toNat - 48) * 100 +
          (c.toNat - 48) * 10 + (d.toNat - 48))
  else none

/-- Interpret two consecutive decimal digits, if that is what the
characters are. -/
def digits2 (a b : Char) : Option Nat :=
  if a.isDigit ∧ b.isDigit then
    some ((a.toNat - 48) * 10 + (b.toNat - 48))
  else none

/-- Parse the time-of-day part `HH:MM` or `HH:MM:SS` following the
date in an ISO-8601 date-time. -/
def parseTimePart (cs : List Char) : Option (Nat × Nat × Nat) :=
  match cs with
  | [h1, h2, ':', m1, m2] =>
      match digits2 h1 h2, digits2 m1 m2 with
      | some h, some m => some (h, m, 0)
      | _, _ => none
  | [h1, h2, ':', m1, m2, ':', s1, s2] =>
      match digits2 h1 h2, digits2 m1 m2, digits2 s1 s2 with
      | some h, some m, some s => some (h, m, s)
      | _, _, _ => none
  | _ => none

/-- Modelled after CPython's `datetime.fromisoformat` (api.py line 57),
restricted to the date and date-time shapes the service exchanges:
`YYYY-MM-DD`, optionally followed by `T` or a space and `HH:MM` or
`HH:MM:SS` (no fractional seconds, no UTC offset).  Out-of-range
component values are rejected exactly as the `datetime` constructor
rejects them. -/
def parseIso (s : String) : Option DateTime :=
  match s.toList with
  | y1 :: y2 :: y3 :: y4 :: '-' :: m1 :: m2 :: '-' :: d1 :: d2 :: rest =>
      match digits4 y1 y2 y3 y4, digits2 m1 m2, digits2 d1 d2 with
      | some y, some mo, some da =>
          match rest with
          | [] =>
              let dt : DateTime := ⟨y, mo, da, 0, 0, 0⟩
              if dt.Valid then some dt else none
          | sep :: timeChars =>
              if sep = 'T' ∨ sep = ' ' then
                match parseTimePart timeChars with
                | some (h, mi, se) =>
                    let dt : DateTime := ⟨y, mo, da, h, mi, se⟩
                    if dt.Valid then some dt else none
                | none => none
              else none
      | _, _, _ => none
  | _ => none

/-- A JSON-ish scalar value as it appears in a request body: a string,
an integer number, or a general (float) number.  Floats never undergo
arithmetic in the pipeline, only copying, so they are represented
exactly as rationals. -/
inductive Value where
  | str (s : String)
  | int (n : Int)
  | num (q : ℚ)
  deriving DecidableEq, Repr

/-- The `trans_date_trans_time` attribute as `transform_input` can
receive it at run time: either text or an already-structured
`datetime` (api.py lines 55-61 dispatch on `isinstance(..., str)`). -/
inductive TimestampInput where
  | str (s : String)
  | dt (d : DateTime)
  deriving DecidableEq, Repr

/-- `InputData` (basemodel.py lines 75-84): the validated transaction
record.  The declared pydantic types are five `str` fields, three
`float` fields, one `int` field and one `datetime` field, all
required, with no range constraints. -/
structure InputData where
  merchant : String
  category : String
  city : String
  state : String
  job : String
  amt : ℚ
  lat : ℚ
  long : ℚ
  city_pop : Int
  trans_date_trans_time : TimestampInput
  deriving DecidableEq, Repr

/-- `ProcessedInputData` (basemodel.py lines 106-118): the feature
record with the datetime decomposed into four integer components. -/
structure ProcessedInputData where
  merchant : String
  category : String
  city : String
  state : String
  job : String
  amt : ℚ
  lat : ℚ
  long : ℚ
  city_pop : Int
  trans_hour : Nat
  trans_day : Nat
  trans_month : Nat
  trans_weekday : Nat
  deriving DecidableEq, Repr

/-- `transform_input` (api.py lines 36-86): parse the timestamp when it
is text (a parse failure raises `ValueError` with the message built at
line 59), extract hour, day, month and weekday, and copy every other
field through into a `ProcessedInputData`. -/
def transform_input (input_data : InputData) : Except String ProcessedInputData :=
  match (match input_data.trans_date_trans_time with
         | .str s =>
             match parseIso s with
             | some d => Except.ok d
             | none =>
                 Except.error
                   ("Invalid datetime format: Invalid isoformat string: " ++ s)
         | .dt d => Except.ok d) with
  | .error e => .error e
  | .ok trans_datetime =>
      .ok { merchant := input_data.merchant
            category := input_data.category
            city := input_data.city
            state := input_data.state
            job := input_data.job
            amt := input_data.amt
            lat := input_data.lat
            long := input_data.long
            city_pop := input_data.city_pop
            trans_hour := trans_datetime.hour
            trans_day := trans_datetime.day
            trans_month := trans_datetime.month
            trans_weekday := trans_datetime.weekday }

/-- `processed_data.dict()` (api.py line 228): the feature record as a
name/value mapping, in pydantic field-declaration order. -/
def featuresDict (p : ProcessedInputData) : List (String × Value) :=
  [("merchant", .str p.merchant),
   ("category", .str p.category),
   ("city", .str p.city),
   ("state", .str p.state),
   ("job", .str p.job),
   ("amt", .num p.amt),
   ("lat", .num p.lat),
   ("long", .num p.long),
   ("city_pop", .int p.city_pop),
   ("trans_hour", .int p.trans_hour),
   ("trans_day", .int p.trans_day),
   ("trans_month", .int p.trans_month),
   ("trans_weekday", .int p.trans_weekday)]

/-- Column selection `features_df[feature_order]` (api.py line 235):
pandas raises `KeyError` listing every requested column absent from
the frame; otherwise it yields the columns in the requested order. -/
def selectColumns (dict : List (String × Value)) (order : List String) :
    Except (List String) (List Value) :=
  let missing := order.filter (fun n => (dict.lookup n).isNone)
  if missing.isEmpty then
    .ok (order.filterMap (fun n => dict.lookup n))
  else
    .error missing

/-- The loaded classifier as the handler uses it (api.py lines
231-239): an ordered feature-name sequence `feature_names_in_`, and
single-row `predict` / `predict_proba` capabilities.  `predict`
yields the raw integer label; `predict_proba` yields the two class
probabilities positionally. -/
structure Model where
  feature_names_in_ : List String
  predictFn : List Value → Int
  predict_probaFn : List Value → ℚ × ℚ

/-- The failure modes of the `/api/predict` route, one per `raise
HTTPException` site reachable in the embedded pipeline, plus the
pydantic request-validation rejection FastAPI performs before the
handler runs. -/
inductive ApiError where
  | validationError (field : String)
  | serviceUnavailable (detail : String)
  | missingFeature (missing : List String)
  | invalidValue (detail : String)
  deriving DecidableEq, Repr

/-- HTTP status attached to each failure (api.py lines 218-266;
FastAPI's 422 for request-body validation failure). -/
def ApiError.statusCode : ApiError → Nat
  | .validationError _ => 422
  | .serviceUnavailable _ => 503
  | .missingFeature _ => 400
  | .invalidValue _ => 400

/-- `PredictionResponse` (basemodel.py lines 6-15): prediction string
and a probability mapping keyed by class name. -/
structure PredictionResponse where
  prediction : String
  proba : List (String × ℚ)
  deriving DecidableEq, Repr

/-- Observable steps of the handler, used to state which collaborators
a run did or did not reach. -/
inductive Ev where
  | transformed
  | vectorBuilt
  | predictCalled
  | probaCalled
  deriving DecidableEq, Repr

/-- The `/api/predict` handler `predict` (api.py lines 156-266), from
the point where FastAPI has already produced a validated `InputData`.
Returns the response or error, paired with the trace of observable
steps performed: the model-presence check comes first; then
`transform_input`; then column selection (whose `KeyError` is caught
at line 252); then `model.predict` and `model.predict_proba` on the
same row, the label mapping of line 242 and the probability mapping of
lines 246-249. -/
def predictHandler (model : Option Model) (request : InputData) :
    Except ApiError PredictionResponse × List Ev :=
  match model with
  | none =>
      (.error (.serviceUnavailable "Model not loaded. Please check server logs."), [])
  | some m =>
      match transform_input request with
      | .error e => (.error (.invalidValue ("Invalid value: " ++ e)), [])
      | .ok processed_data =>
          let features_dict := featuresDict processed_data
          let feature_order := m.feature_names_in_
          match selectColumns features_dict feature_order with
          | .error missing =>
              (.error (.missingFeature missing), [.transformed])
          | .ok row =>
              let prediction := m.predictFn row
              let probabilities := m.predict_probaFn row
              let prediction_str := if prediction = 1 then "fraud" else "not_fraud"
              (.ok { prediction := prediction_str
                     proba := [("not_fraud", probabilities.1),
                               ("fraud", probabilities.2)] },
               [.transformed, .vectorBuilt, .predictCalled, .probaCalled])

/-- A raw `/api/predict` request body before validation: each field of
the JSON object is present with some scalar value, or absent. -/
structure RawBody where
  merchant : Option Value
  category : Option Value
  city : Option Value
  state : Option Value
  job : Option Value
  amt : Option Value
  lat : Option Value
  long : Option Value
  city_pop : Option Value
  trans_date_trans_time : Option Value
  deriving DecidableEq, Repr

/-- Pydantic validation of a `str` field: required, must be text. -/
def asStr (field : String) (v : Option Value) : Except ApiError String :=
  match v with
  | some (.str s) => .ok s
  | _ => .error (.validationError field)

/-- Pydantic validation of a `float` field: required, any integer or
float number is accepted (integers coerce to float). -/
def asFloat (field : String) (v : Option Value) : Except ApiError ℚ :=
  match v with
  | some (.num q) => .ok q
  | some (.int n) => .ok (n : ℚ)
  | _ => .error (.validationError field)

/-- Pydantic validation of an `int` field: required, an integer, or a
float with zero fractional part. -/
def asInt (field : String) (v : Option Value) : Except ApiError Int :=
  match v with
  | some (.int n) => .ok n
  | some (.num q) => if q.den = 1 then .ok q.num else .error (.validationError field)
  | _ => .error (.validationError field)

/-- Pydantic validation of the `datetime` field: required; an ISO-8601
string is parsed into a structured datetime, anything unparseable is
rejected with the 422 validation error. -/
def asDatetime (field : String) (v : Option Value) : Except ApiError TimestampInput :=
  match v with
  | some (.str s) =>
      match parseIso s with
      | some d => .ok (.dt d)
      | none => .error (.validationError field)
  | _ => .error (.validationError field)

/-- FastAPI request-body deserialization into `InputData`
(basemodel.py lines 75-84): every field is required with its declared
type; there are no range constraints and no defaults.  A failure is
reported with status 422 before the handler runs. -/
def deserializeBody (b : RawBody) : Except ApiError InputData := do
  let merchant ← asStr "merchant" b.merchant
  let category ← asStr "category" b.category
  let city ← asStr "city" b.city
  let state ← asStr "state" b.state
  let job ← asStr "job" b.job
  let amt ← asFloat "amt" b.amt
  let lat ← asFloat "lat" b.lat
  let long ← asFloat "long" b.long
  let city_pop ← asInt "city_pop" b.city_pop
  let ts ← asDatetime "trans_date_trans_time" b.trans_date_trans_time
  .ok { merchant := merchant, category := category, city := city,
        state := state, job := job, amt := amt, lat := lat,
        long := long, city_pop := city_pop,
        trans_date_trans_time := ts }

/-- The full `POST /api/predict` route: deserialize and validate the
body (FastAPI, status 422 on failure, handler not entered), then run
the handler. -/
def fullPredict (model : Option Model) (b : RawBody) :
    Except ApiError PredictionResponse × List Ev :=
  match deserializeBody b with
  | .error e => (.error e, [])
  | .ok request => predictHandler model request

/-- The thirteen feature names the trained model was fit against, in
the order used throughout the repository's tests
(src/tests/test_api.py lines 45-49). -/
def fullOrder : List String :=
  ["merchant", "category", "city", "state", "job", "amt",
   "lat", "long", "city_pop", "trans_hour", "trans_day",
   "trans_month", "trans_weekday"]

/-- Concrete validated transaction, after the repository's example
request (api.py lines 195-206), with the timestamp already structured
as it is after pydantic validation. -/
def exampleInput : InputData :=
  { merchant := "Walmart", category := "groceries", city := "Springfield",
    state := "IL", job := "Engineer", amt := 120, lat := 39,
    long := -89, city_pop := 116250,
    trans_date_trans_time := .dt ⟨2025, 12, 4, 14, 30, 0⟩ }

/-- The feature record `transform_input` produces for
`exampleInput`. -/
def exampleProcessed : ProcessedInputData :=
  { merchant := "Walmart", category := "groceries", city := "Springfield",
    state := "IL", job := "Engineer", amt := 120, lat := 39,
    long := -89, city_pop := 116250,
    trans_hour := 14, trans_day := 4, trans_month := 12,
    trans_weekday := 3 }

/-- The row vector the handler passes to the model for
`exampleProcessed` under `fullOrder`. -/
def exampleVector : List Value :=
  [.str "Walmart", .str "groceries", .str "Springfield", .str "IL",
   .str "Engineer", .num 120, .num 39, .num (-89), .int 116250,
   .int 14, .int 4, .int 12, .int 3]

/-- A stub classifier that always reports the raw label 1 with a fixed
probability vector. -/
def exampleModelFraud : Model :=
  { feature_names_in_ := fullOrder,
    predictFn := fun _ => 1,
    predict_probaFn := fun _ => (1/10, 9/10) }

/-- A stub classifier that always reports the raw label 0 with the
probability vector of the repository's example response. -/
def exampleModelLegit : Model :=
  { feature_names_in_ := fullOrder,
    predictFn := fun _ => 0,
    predict_probaFn := fun _ => (92/100, 8/100) }

/-- A stub classifier whose feature order names a field
(`zip`) that no feature record carries. -/
def exampleModelZip : Model :=
  { feature_names_in_ := ["zip"],
    predictFn := fun _ => 0,
    predict_probaFn := fun _ => (1/2, 1/2) }

/-- A stub classifier whose feature order names only `amt`, leaving
the other twelve record fields unused. -/
def exampleModelAmtOnly : Model :=
  { feature_names_in_ := ["amt"],
    predictFn := fun _ => 0,
    predict_probaFn := fun _ => (1/2, 1/2) }

/-- A complete, well-typed request body whose `amt` is negative
(out of the domain the specification states). -/
def negativeAmtBody : RawBody :=
  { merchant := some (.str "Walmart"), category := some (.str "groceries"),
    city := some (.str "Springfield"), state := some (.str "IL"),
    job := some (.str "Engineer"), amt := some (.num (-1)),
    lat := some (.num 39), long := some (.num (-89)),
    city_pop := some (.int 116250),
    trans_date_trans_time := some (.str "2025-12-04T14:30:00") }

/-- A request body identical to the example but with an unparseable
timestamp string. -/
def badTimestampBody : RawBody :=
  { negativeAmtBody with
    amt := some (.num 120),
    trans_date_trans_time := some (.str "12/04/2025 14:30") }

theorem daysInMonth_le_31 (y m : Nat) : daysInMonth y m ≤ 31 := by
  unfold daysInMonth
  split
  · split <;> omega
  · split <;> omega

theorem weekday_le_6 (d : DateTime) : d.weekday ≤ 6 := by
  have : (toordinal d.year d.month d.day + 6) % 7 < 7 := Nat.mod_lt _ (by omega)
  unfold DateTime.weekday
  omega

theorem transform_input_dt (input : InputData) (d : DateTime)
    (h : input.trans_date_trans_time = .dt d) :
    transform_input input = .ok
      { merchant := input.merchant, category := input.category,
        city := input.city, state := input.state, job := input.job,
        amt := input.amt, lat := input.lat, long := input.long,
        city_pop := input.city_pop, trans_hour := d.hour,
        trans_day := d.day, trans_month := d.month,
        trans_weekday := d.weekday } := by
  unfold transform_input
  rw [h]

theorem transform_input_str_some (input : InputData) (s : String) (d : DateTime)
    (h : input.trans_date_trans_time = .str s) (hp : parseIso s = some d) :
    transform_input input = .ok
      { merchant := input.merchant, category := input.category,
        city := input.city, state := input.state, job := input.job,
        amt := input.amt, lat := input.lat, long := input.long,
        city_pop := input.city_pop, trans_hour := d.hour,
        trans_day := d.day, trans_month := d.month,
        trans_weekday := d.weekday } := by
  unfold transform_input
  rw [h]
  simp [hp]

theorem transform_input_str_none (input : InputData) (s : String)
    (h : input.trans_date_trans_time = .str s) (hp : parseIso s = none) :
    transform_input input =
      Except.error ("Invalid datetime format: Invalid isoformat string: " ++ s) := by
  unfold transform_input
  rw [h]
  simp [hp]

theorem asStr_ok {f : String} {v : Option Value} {s : String}
    (h : asStr f v = Except.ok s) : v = some (.str s) := by
  match v with
  | none => simp [asStr] at h
  | some (.str t) => simp [asStr] at h; rw [h]
  | some (.int n) => simp [asStr] at h
  | some (.num q) => simp [asStr] at h

theorem asStr_error {f : String} {v : Option Value} {e : ApiError}
    (h : asStr f v = Except.error e) : e = .validationError f := by
  match v with
  | none => simp [asStr] at h; exact h.symm
  | some (.str t) => simp [asStr] at h
  | some (.int n) => simp [asStr] at h; exact h.symm
  | some (.num q) => simp [asStr] at h; exact h.symm

theorem asFloat_ok {f : String} {v : Option Value} {q : ℚ}
    (h : asFloat f v = Except.ok q) :
    v = some (.num q) ∨ ∃ n : Int, v = some (.int n) ∧ q = (n : ℚ) := by
  match v with
  | none => simp [asFloat] at h
  | some (.str t) => simp [asFloat] at h
  | some (.int n) => simp [asFloat] at h; exact Or.inr ⟨n, rfl, h.symm⟩
  | some (.num p) => simp [asFloat] at h; exact Or.inl (by rw [h])

theorem asFloat_error {f : String} {v : Option Value} {e : ApiError}
    (h : asFloat f v = Except.error e) : e = .validationError f := by
  match v with
  | none => simp [asFloat] at h; exact h.symm
  | some (.str t) => simp [asFloat] at h; exact h.symm
  | some (.int n) => simp [asFloat] at h
  | some (.num p) => simp [asFloat] at h

theorem asInt_ok {f : String} {v : Option Value} {n : Int}
    (h : asInt f v = Except.ok n) :
    v = some (.int n) ∨ ∃ q : ℚ, v = some (.num q) ∧ q.den = 1 ∧ n = q.num := by
  match v with
  | none => simp [asInt] at h
  | some (.str t) => simp [asInt] at h
  | some (.int m) => simp [asInt] at h; exact Or.inl (by rw [h])
  | some (.num q) =>
      simp only [asInt] at h
      split at h
      · exact Or.inr ⟨q, rfl, by assumption, by cases h; rfl⟩
      · cases h

theorem asInt_error {f : String} {v : Option Value} {e : ApiError}
    (h : asInt f v = Except.error e) : e = .validationError f := by
  match v with
  | none => simp [asInt] at h; exact h.symm
  | some (.str t) => simp [asInt] at h; exact h.symm
  | some (.int m) => simp [asInt] at h
  | some (.num q) =>
      simp only [asInt] at h
      split at h
      · cases h
      · cases h; rfl

theorem asDatetime_ok {f : String} {v : Option Value} {t : TimestampInput}
    (h : asDatetime f v = Except.ok t) :
    ∃ s d, v = some (.str s) ∧ parseIso s = some d ∧ t = .dt d := by
  match v with
  | none => simp [asDatetime] at h
  | some (.int n) => simp [asDatetime] at h
  | some (.num q) => simp [asDatetime] at h
  | some (.str s) =>
      simp only [asDatetime] at h
      cases hp : parseIso s with
      | none => rw [hp] at h; cases h
      | some d => rw [hp] at h; cases h; exact ⟨s, d, rfl, hp, rfl⟩

theorem asDatetime_error {f : String} {v : Option Value} {e : ApiError}
    (h : asDatetime f v = Except.error e) : e = .validationError f := by
  match v with
  | none => simp [asDatetime] at h; exact h.symm
  | some (.int n) => simp [asDatetime] at h; exact h.symm
  | some (.num q) => simp [asDatetime] at h; exact h.symm
  | some (.str s) =>
      simp only [asDatetime] at h
      cases hp : parseIso s with
      | none => rw [hp] at h; cases h; rfl
      | some d => rw [hp] at h; cases h

theorem asFloat_ne_none {f : String} {v : Option Value} {q : ℚ}
    (h : asFloat f v = Except.ok q) : v ≠ none := by
  rcases asFloat_ok h with h' | ⟨n, h', _⟩ <;> simp [h']

theorem asInt_ne_none {f : String} {v : Option Value} {n : Int}
    (h : asInt f v = Except.ok n) : v ≠ none := by
  rcases asInt_ok h with h' | ⟨q, h', _, _⟩ <;> simp [h']

theorem deserializeBody_ok_shape (b : RawBody) (r : InputData)
    (h : deserializeBody b = Except.ok r) :
    b.merchant ≠ none ∧ b.category ≠ none ∧ b.city ≠ none ∧ b.state ≠ none ∧
    b.job ≠ none ∧ b.amt ≠ none ∧ b.lat ≠ none ∧ b.long ≠ none ∧
    b.city_pop ≠ none ∧
    (∃ s d, b.trans_date_trans_time = some (.str s) ∧ parseIso s = some d ∧
      r.trans_date_trans_time = .dt d) := by
  simp only [deserializeBody, bind, Except.bind] at h
  cases h1 : asStr "merchant" b.merchant with
  | error e => rw [h1] at h; simp at h
  | ok s1 =>
  rw [h1] at h
  cases h2 : asStr "category" b.category with
  | error e => rw [h2] at h; simp at h
  | ok s2 =>
  rw [h2] at h
  cases h3 : asStr "city" b.city with
  | error e => rw [h3] at h; simp at h
  | ok s3 =>
  rw [h3] at h
  cases h4 : asStr "state" b.state with
  | error e => rw [h4] at h; simp at h
  | ok s4 =>
  rw [h4] at h
  cases h5 : asStr "job" b.job with
  | error e => rw [h5] at h; simp at h
  | ok s5 =>
  rw [h5] at h
  cases h6 : asFloat "amt" b.amt with
  | error e => rw [h6] at h; simp at h
  | ok q6 =>
  rw [h6] at h
  cases h7 : asFloat "lat" b.lat with
  | error e => rw [h7] at h; simp at h
  | ok q7 =>
  rw [h7] at h
  cases h8 : asFloat "long" b.long with
  | error e => rw [h8] at h; simp at h
  | ok q8 =>
  rw [h8] at h
  cases h9 : asInt "city_pop" b.city_pop with
  | error e => rw [h9] at h; simp at h
  | ok n9 =>
  rw [h9] at h
  cases h10 : asDatetime "trans_date_trans_time" b.trans_date_trans_time with
  | error e => rw [h10] at h; simp at h
  | ok ts =>
  rw [h10] at h
  simp only [Except.ok.injEq] at h
  obtain ⟨s, d, hv, hp, hts⟩ := asDatetime_ok h10
  refine ⟨by simp [asStr_ok h1], by simp [asStr_ok h2], by simp [asStr_ok h3],
          by simp [asStr_ok h4], by simp [asStr_ok h5],
          asFloat_ne_none h6, asFloat_ne_none h7, asFloat_ne_none h8,
          asInt_ne_none h9, s, d, hv, hp, ?_⟩
  rw [← h]
  exact hts

theorem deserializeBody_error_shape (b : RawBody) (e : ApiError)
    (h : deserializeBody b = Except.error e) :
    ∃ f, e = ApiError.validationError f := by
  simp only [deserializeBody, bind, Except.bind] at h
  cases h1 : asStr "merchant" b.merchant with
  | error e1 => rw [h1] at h; simp at h; exact ⟨"merchant", h ▸ asStr_error h1⟩
  | ok s1 =>
  rw [h1] at h
  cases h2 : asStr "category" b.category with
  | error e2 => rw [h2] at h; simp at h; exact ⟨"category", h ▸ asStr_error h2⟩
  | ok s2 =>
  rw [h2] at h
  cases h3 : asStr "city" b.city with
  | error e3 => rw [h3] at h; simp at h; exact ⟨"city", h ▸ asStr_error h3⟩
  | ok s3 =>
  rw [h3] at h
  cases h4 : asStr "state" b.state with
  | error e4 => rw [h4] at h; simp at h; exact ⟨"state", h ▸ asStr_error h4⟩
  | ok s4 =>
  rw [h4] at h
  cases h5 : asStr "job" b.job with
  | error e5 => rw [h5] at h; simp at h; exact ⟨"job", h ▸ asStr_error h5⟩
  | ok s5 =>
  rw [h5] at h
  cases h6 : asFloat "amt" b.amt with
  | error e6 => rw [h6] at h; simp at h; exact ⟨"amt", h ▸ asFloat_error h6⟩
  | ok q6 =>
  rw [h6] at h
  cases h7 : asFloat "lat" b.lat with
  | error e7 => rw [h7] at h; simp at h; exact ⟨"lat", h ▸ asFloat_error h7⟩
  | ok q7 =>
  rw [h7] at h
  cases h8 : asFloat "long" b.long with
  | error e8 => rw [h8] at h; simp at h; exact ⟨"long", h ▸ asFloat_error h8⟩
  | ok q8 =>
  rw [h8] at h
  cases h9 : asInt "city_pop" b.city_pop with
  | error e9 => rw [h9] at h; simp at h; exact ⟨"city_pop", h ▸ asInt_error h9⟩
  | ok n9 =>
  rw [h9] at h
  cases h10 : asDatetime "trans_date_trans_time" b.trans_date_trans_time with
  | error e10 =>
      rw [h10] at h; simp at h
      exact ⟨"trans_date_trans_time", h ▸ asDatetime_error h10⟩
  | ok ts =>
  rw [h10] at h
  simp at h

theorem length_filterMap_of_isSome {α β : Type} (f : α → Option β) :
    ∀ l : List α, (∀ a ∈ l, (f a).isSome) → (l.filterMap f).length = l.length := by
  intro l h
  induction l with
  | nil => rfl
  | cons a t ih =>
      obtain ⟨b, hb⟩ := Option.isSome_iff_exists.mp (h a (by simp))
      simp only [List.filterMap_cons, hb, List.length_cons]
      rw [ih (fun x hx => h x (by simp [hx]))]

theorem selectColumns_ok_of_all_present (dict : List (String × Value))
    (order : List String) (h : ∀ n ∈ order, (dict.lookup n).isSome) :
    selectColumns dict order = .ok (order.filterMap fun n => dict.lookup n) := by
  unfold selectColumns
  have hfil : order.filter (fun n => (dict.lookup n).isNone) = [] := by
    rw [List.filter_eq_nil_iff]
    intro a ha
    simp only [Bool.not_eq_true, Option.isNone_eq_false_iff]
    exact h a ha
  simp [hfil]

theorem selectColumns_error_of_missing (dict : List (String × Value))
    (order : List String) (n : String) (h1 : n ∈ order)
    (h2 : dict.lookup n = none) :
    ∃ missing, selectColumns dict order = .error missing ∧ n ∈ missing := by
  unfold selectColumns
  have hmem : n ∈ order.filter (fun n => (dict.lookup n).isNone) :=
    List.mem_filter.mpr ⟨h1, by simp [h2]⟩
  have hne : (order.filter (fun n => (dict.lookup n).isNone)).isEmpty = false := by
    cases hE : (order.filter (fun n => (dict.lookup n).isNone)).isEmpty
    · rfl
    · rw [List.isEmpty_iff] at hE
      rw [hE] at hmem
      cases hmem
  refine ⟨order.filter (fun n => (dict.lookup n).isNone), ?_, hmem⟩
  simp [hne]

theorem predictHandler_ok (m : Model) (request : InputData)
    (p : ProcessedInputData) (v : List Value)
    (h1 : transform_input request = .ok p)
    (h2 : selectColumns (featuresDict p) m.feature_names_in_ = .ok v) :
    predictHandler (some m) request =
      (.ok { prediction := if m.predictFn v = 1 then "fraud" else "not_fraud",
             proba := [("not_fraud", (m.predict_probaFn v).1),
                       ("fraud", (m.predict_probaFn v).2)] },
       [.transformed, .vectorBuilt, .predictCalled, .probaCalled]) := by
  unfold predictHandler
  rw [h1]
  simp only []
  rw [h2]

/-- C1: For every valid RawTransaction, `transform` produces a
FeatureRecord whose `trans_hour`, `trans_day`, `trans_month` and
`trans_weekday` equal the calendar decomposition of the given
timestamp (hour-of-day in [0,23], day-of-month in [1,31], month in
[1,12], weekday with Monday = 0 and Sunday = 6), taken from the naive
calendar fields with no timezone conversion.  The closing conjuncts
anchor the weekday convention: 2024-01-01 was a Monday (0) and
2024-01-07 a Sunday (6). -/
theorem transform_calendar_decomposition :
    (∀ (input : InputData) (d : DateTime),
        (input.trans_date_trans_time = .dt d ∨
         ∃ s, input.trans_date_trans_time = .str s ∧ parseIso s = some d) →
        d.Valid →
        ∃ p, transform_input input = Except.ok p ∧
          p.trans_hour = d.hour ∧ p.trans_day = d.day ∧
          p.trans_month = d.month ∧ p.trans_weekday = d.weekday ∧
          p.trans_hour ≤ 23 ∧ 1 ≤ p.trans_day ∧ p.trans_day ≤ 31 ∧
          1 ≤ p.trans_month ∧ p.trans_month ≤ 12 ∧ p.trans_weekday ≤ 6) ∧
    DateTime.weekday ⟨2024, 1, 1, 0, 0, 0⟩ = 0 ∧
    DateTime.weekday ⟨2024, 1, 7, 0, 0, 0⟩ = 6 := by
  refine ⟨?_, by decide, by decide⟩
  intro input d hts hv
  obtain ⟨hy1, hy2, hm1, hm2, hd1, hd2, hh, hmin, hs⟩ := hv
  have htr : transform_input input = Except.ok
      { merchant := input.merchant, category := input.category,
        city := input.city, state := input.state, job := input.job,
        amt := input.amt, lat := input.lat, long := input.long,
        city_pop := input.city_pop, trans_hour := d.hour,
        trans_day := d.day, trans_month := d.month,
        trans_weekday := d.weekday } := by
    rcases hts with h | ⟨s, h, hp⟩
    · exact transform_input_dt input d h
    · exact transform_input_str_some input s d h hp
  exact ⟨_, htr, rfl, rfl, rfl, rfl, hh, hd1,
    le_trans hd2 (daysInMonth_le_31 d.year d.month), hm1, hm2, weekday_le_6 d⟩

/-- Witness for C1 at the repository's example timestamp
2025-12-04T14:30:00: hour 14, day 4, month 12, weekday 3
(Thursday). -/
theorem transform_calendar_decomposition_witness :
    ∃ p, transform_input exampleInput = Except.ok p ∧
      p.trans_hour = 14 ∧ p.trans_day = 4 ∧ p.trans_month = 12 ∧
      p.trans_weekday = 3 := by
  obtain ⟨p, hp, h1, h2, h3, h4, -⟩ :=
    transform_calendar_decomposition.1 exampleInput ⟨2025, 12, 4, 14, 30, 0⟩
      (Or.inl rfl) (by decide)
  exact ⟨p, hp, h1.trans (by decide), h2.trans (by decide),
    h3.trans (by decide), h4.trans (by decide)⟩

/-- C7: For every RawTransaction whose timestamp is a string that is
not parseable as ISO-8601, `transform` fails with an invalid-input
error carrying the offending string and reason, never crashes, and
never returns a (partially built) FeatureRecord. -/
theorem transform_unparseable_timestamp :
    ∀ (input : InputData) (s : String),
      input.trans_date_trans_time = .str s → parseIso s = none →
      transform_input input =
        Except.error ("Invalid datetime format: Invalid isoformat string: " ++ s) ∧
      ∀ p, transform_input input ≠ Except.ok p := by
  intro input s hts hp
  have h := transform_input_str_none input s hts hp
  exact ⟨h, fun p hc => by rw [h] at hc; cases hc⟩

/-- Witness for C7 at the unparseable timestamp string
"not-a-date". -/
theorem transform_unparseable_timestamp_witness :
    transform_input
        { exampleInput with trans_date_trans_time := .str "not-a-date" } =
      Except.error
        ("Invalid datetime format: Invalid isoformat string: " ++ "not-a-date") := by
  exact (transform_unparseable_timestamp
    { exampleInput with trans_date_trans_time := .str "not-a-date" }
    "not-a-date" rfl (by decide)).1

/-- C8: For every valid RawTransaction (here: any input whose
timestamp is structured, as it is after validation), `transform`
copies all nine non-timestamp fields — merchant, category, city,
state, job, amt, lat, long, city_pop — into the FeatureRecord
unchanged. -/
theorem transform_copies_fields :
    ∀ (input : InputData) (d : DateTime),
      (input.trans_date_trans_time = .dt d ∨
       ∃ s, input.trans_date_trans_time = .str s ∧ parseIso s = some d) →
      ∃ p, transform_input input = Except.ok p ∧
        p.merchant = input.merchant ∧ p.category = input.category ∧
        p.city = input.city ∧ p.state = input.state ∧ p.job = input.job ∧
        p.amt = input.amt ∧ p.lat = input.lat ∧ p.long = input.long ∧
        p.city_pop = input.city_pop := by
  intro input d hts
  rcases hts with h | ⟨s, h, hp⟩
  · exact ⟨_, transform_input_dt input d h,
      rfl, rfl, rfl, rfl, rfl, rfl, rfl, rfl, rfl⟩
  · exact ⟨_, transform_input_str_some input s d h hp,
      rfl, rfl, rfl, rfl, rfl, rfl, rfl, rfl, rfl⟩

/-- Witness for C8 at the repository's example transaction. -/
theorem transform_copies_fields_witness :
    ∃ p, transform_input exampleInput = Except.ok p ∧
      p.merchant = exampleInput.merchant ∧ p.category = exampleInput.category ∧
      p.city = exampleInput.city ∧ p.state = exampleInput.state ∧
      p.job = exampleInput.job ∧ p.amt = exampleInput.amt ∧
      p.lat = exampleInput.lat ∧ p.long = exampleInput.long ∧
      p.city_pop = exampleInput.city_pop := by
  exact transform_copies_fields exampleInput ⟨2025, 12, 4, 14, 30, 0⟩ (Or.inl rfl)

/-- C5: For every request, if the model handle is absent, `predict`
fails with ServiceUnavailable (status 503) before any feature
transformation, vector construction, or call to the model
collaborator (the step trace is empty), and this failure kind is
distinct from the input-validation failure kind (status 422). -/
theorem predict_no_model_service_unavailable :
    ∀ request : InputData,
      predictHandler none request =
        (Except.error
          (.serviceUnavailable "Model not loaded. Please check server logs."), []) ∧
      (ApiError.serviceUnavailable
        "Model not loaded. Please check server logs.").statusCode = 503 ∧
      ∀ f, ApiError.serviceUnavailable
        "Model not loaded. Please check server logs." ≠
          ApiError.validationError f := by
  intro request
  exact ⟨rfl, rfl, fun f h => by cases h⟩

/-- Witness for C5 at the example transaction: with no model loaded,
the handler reports ServiceUnavailable and performs no step. -/
theorem predict_no_model_service_unavailable_witness :
    predictHandler none exampleInput =
      (Except.error
        (.serviceUnavailable "Model not loaded. Please check server logs."), []) := by
  exact (predict_no_model_service_unavailable exampleInput).1

/-- C2: In `predict`, the raw label returned by the model maps to the
response string by a fixed rule: raw label 1 maps to "fraud" and every
other raw label (including 0) maps to "not_fraud"; the mapping never
depends on the probability values (replacing the probability
capability leaves the prediction string unchanged). -/
theorem predict_label_mapping :
    ∀ (m : Model) (request : InputData) (p : ProcessedInputData)
      (v : List Value) (resp : PredictionResponse),
      transform_input request = .ok p →
      selectColumns (featuresDict p) m.feature_names_in_ = .ok v →
      (predictHandler (some m) request).1 = .ok resp →
      (resp.prediction = "fraud" ↔ m.predictFn v = 1) ∧
      (m.predictFn v ≠ 1 → resp.prediction = "not_fraud") ∧
      (∀ (probaFn2 : List Value → ℚ × ℚ) (resp2 : PredictionResponse),
        (predictHandler
          (some ⟨m.feature_names_in_, m.predictFn, probaFn2⟩) request).1 =
            .ok resp2 →
        resp2.prediction = resp.prediction) := by
  intro m request p v resp h1 h2 h3
  rw [predictHandler_ok m request p v h1 h2] at h3
  simp only [Except.ok.injEq] at h3
  have hpred : resp.prediction =
      (if m.predictFn v = 1 then "fraud" else "not_fraud") := by
    rw [← h3]
  refine ⟨?_, ?_, ?_⟩
  · rw [hpred]
    by_cases he : m.predictFn v = 1
    · rw [if_pos he]
      exact iff_of_true rfl he
    · rw [if_neg he]
      exact iff_of_false (by decide) he
  · intro hne
    rw [hpred, if_neg hne]
  · intro probaFn2 resp2 h4
    rw [predictHandler_ok ⟨m.feature_names_in_, m.predictFn, probaFn2⟩
      request p v h1 h2] at h4
    simp only [Except.ok.injEq] at h4
    rw [← h4, hpred]

/-- Witness for C2: a stub model that always returns raw label 1
yields the prediction string "fraud" on the example transaction. -/
theorem predict_label_mapping_witness :
    ∃ resp, (predictHandler (some exampleModelFraud) exampleInput).1 =
        Except.ok resp ∧
      (resp.prediction = "fraud" ↔ exampleModelFraud.predictFn exampleVector = 1) := by
  have h := predict_label_mapping exampleModelFraud exampleInput
    exampleProcessed exampleVector
    { prediction := "fraud",
      proba := [("not_fraud", 1/10), ("fraud", 9/10)] }
    rfl rfl rfl
  exact ⟨_, rfl, h.1⟩

/-- C3: For every successful prediction, the response probabilities
are the raw two-element probability vector passed through verbatim and
positionally: element 0 becomes proba["not_fraud"] and element 1
becomes proba["fraud"], with no renormalization, so the sum of the two
response entries equals the sum of the raw vector. -/
theorem predict_proba_passthrough :
    ∀ (m : Model) (request : InputData) (p : ProcessedInputData)
      (v : List Value) (resp : PredictionResponse),
      transform_input request = .ok p →
      selectColumns (featuresDict p) m.feature_names_in_ = .ok v →
      (predictHandler (some m) request).1 = .ok resp →
      resp.proba = [("not_fraud", (m.predict_probaFn v).1),
                    ("fraud", (m.predict_probaFn v).2)] ∧
      resp.proba.lookup "not_fraud" = some (m.predict_probaFn v).1 ∧
      resp.proba.lookup "fraud" = some (m.predict_probaFn v).2 ∧
      ∃ pn pf, resp.proba.lookup "not_fraud" = some pn ∧
        resp.proba.lookup "fraud" = some pf ∧
        pn + pf = (m.predict_probaFn v).1 + (m.predict_probaFn v).2 := by
  intro m request p v resp h1 h2 h3
  rw [predictHandler_ok m request p v h1 h2] at h3
  simp only [Except.ok.injEq] at h3
  subst h3
  refine ⟨rfl, ?_, ?_, _, _, ?_, ?_, rfl⟩ <;> simp [List.lookup]

/-- Witness for C3: a stub model reporting raw probabilities
(92/100, 8/100) yields exactly those two entries, summing to 1. -/
theorem predict_proba_passthrough_witness :
    ∃ resp, (predictHandler (some exampleModelLegit) exampleInput).1 =
        Except.ok resp ∧
      resp.proba.lookup "not_fraud" = some (92/100 : ℚ) ∧
      resp.proba.lookup "fraud" = some (8/100 : ℚ) := by
  have h := predict_proba_passthrough exampleModelLegit exampleInput
    exampleProcessed exampleVector
    { prediction := "not_fraud",
      proba := [("not_fraud", 92/100), ("fraud", 8/100)] }
    rfl rfl rfl
  exact ⟨_, rfl, h.2.1, h.2.2.1⟩

/-- C6: For every FeatureRecord and model, if the model's feature
order names a field absent from the FeatureRecord, `predict` fails
with the schema-mismatch error naming that missing field, and never
invokes the model's predict or predict_proba capabilities. -/
theorem predict_missing_feature_schema_mismatch :
    ∀ (m : Model) (request : InputData) (p : ProcessedInputData) (n : String),
      transform_input request = .ok p →
      n ∈ m.feature_names_in_ →
      (featuresDict p).lookup n = none →
      ∃ missing,
        (predictHandler (some m) request).1 =
          Except.error (.missingFeature missing) ∧
        n ∈ missing ∧
        Ev.predictCalled ∉ (predictHandler (some m) request).2 ∧
        Ev.probaCalled ∉ (predictHandler (some m) request).2 := by
  intro m request p n h1 hmem hlook
  obtain ⟨missing, hsel, hin⟩ :=
    selectColumns_error_of_missing (featuresDict p) m.feature_names_in_ n hmem hlook
  have hrun : predictHandler (some m) request =
      (Except.error (.missingFeature missing), [.transformed]) := by
    unfold predictHandler
    rw [h1]
    simp only []
    rw [hsel]
  refine ⟨missing, ?_, hin, ?_, ?_⟩ <;> rw [hrun] <;> simp

/-- Witness for C6: a stub model expecting the feature "zip", which no
feature record carries, on the example transaction. -/
theorem predict_missing_feature_schema_mismatch_witness :
    ∃ missing,
      (predictHandler (some exampleModelZip) exampleInput).1 =
        Except.error (.missingFeature missing) ∧
      "zip" ∈ missing := by
  obtain ⟨missing, herr, hin, -, -⟩ :=
    predict_missing_feature_schema_mismatch exampleModelZip exampleInput
      exampleProcessed "zip" rfl (by decide) (by decide)
  exact ⟨missing, herr, hin⟩

/-- C10: Every FeatureRecord field whose name does not appear in the
model's feature order is silently omitted from the vector passed to
the model, and no error is raised: when every expected name is
present, prediction succeeds and the vector has exactly one entry per
expected name (extra record fields are never reported). -/
theorem predict_ignores_extra_fields :
    ∀ (m : Model) (request : InputData) (p : ProcessedInputData),
      transform_input request = .ok p →
      (∀ n ∈ m.feature_names_in_, ((featuresDict p).lookup n).isSome) →
      ∃ v,
        selectColumns (featuresDict p) m.feature_names_in_ = Except.ok v ∧
        v = m.feature_names_in_.filterMap (fun n => (featuresDict p).lookup n) ∧
        v.length = m.feature_names_in_.length ∧
        ∃ resp, (predictHandler (some m) request).1 = Except.ok resp := by
  intro m request p h1 h2
  have hsel := selectColumns_ok_of_all_present (featuresDict p)
    m.feature_names_in_ h2
  refine ⟨_, hsel, rfl, length_filterMap_of_isSome _ _ h2, ?_⟩
  rw [predictHandler_ok m request p _ h1 hsel]
  exact ⟨_, rfl⟩

/-- Witness for C10: a stub model expecting only "amt" runs without
error on the 13-field feature record, receiving a one-entry vector
(the other twelve fields are dropped silently). -/
theorem predict_ignores_extra_fields_witness :
    ∃ v,
      selectColumns (featuresDict exampleProcessed)
        exampleModelAmtOnly.feature_names_in_ = Except.ok v ∧
      v.length = 1 ∧
      ∃ resp, (predictHandler (some exampleModelAmtOnly) exampleInput).1 =
        Except.ok resp := by
  obtain ⟨v, hsel, -, hlen, hok⟩ :=
    predict_ignores_extra_fields exampleModelAmtOnly exampleInput
      exampleProcessed rfl (by decide)
  exact ⟨v, hsel, hlen, hok⟩

/-- Counterexample to C4: validation accepts a complete, well-typed
request body whose `amt` is -1, a negative amount outside the domain
the claim states must be rejected (the schema in basemodel.py lines
75-84 declares plain types with no range constraints). -/
theorem inputdata_accepts_negative_amt :
    deserializeBody negativeAmtBody = Except.ok
      { merchant := "Walmart", category := "groceries", city := "Springfield",
        state := "IL", job := "Engineer", amt := -1, lat := 39, long := -89,
        city_pop := 116250,
        trans_date_trans_time := .dt ⟨2025, 12, 4, 14, 30, 0⟩ } ∧
    (-1 : ℚ) < 0 := by
  exact ⟨rfl, by norm_num⟩

/-- C4 (amended): a RawTransaction is accepted exactly on presence and
declared type of every field — the absence of any field is a
validation failure rather than a silent default — but no domain
constraint is enforced on the numeric fields: any amt, lat, long and
city_pop values (including negative or out-of-range ones) are
accepted. -/
theorem inputdata_validation_presence_only :
    (∀ b : RawBody,
      b.merchant = none ∨ b.category = none ∨ b.city = none ∨
      b.state = none ∨ b.job = none ∨ b.amt = none ∨ b.lat = none ∨
      b.long = none ∨ b.city_pop = none ∨
      b.trans_date_trans_time = none →
      ∃ f, deserializeBody b = Except.error (.validationError f)) ∧
    (∀ (ms cs cis ss js : String) (aq lq oq : ℚ) (cp : Int)
       (s : String) (d : DateTime),
      parseIso s = some d →
      deserializeBody
        { merchant := some (.str ms), category := some (.str cs),
          city := some (.str cis), state := some (.str ss),
          job := some (.str js), amt := some (.num aq),
          lat := some (.num lq), long := some (.num oq),
          city_pop := some (.int cp),
          trans_date_trans_time := some (.str s) } = Except.ok
        { merchant := ms, category := cs, city := cis, state := ss,
          job := js, amt := aq, lat := lq, long := oq, city_pop := cp,
          trans_date_trans_time := .dt d }) := by
  constructor
  · intro b hmiss
    cases hres : deserializeBody b with
    | ok r =>
        exfalso
        obtain ⟨n1, n2, n3, n4, n5, n6, n7, n8, n9, s, d, hts, -, -⟩ :=
          deserializeBody_ok_shape b r hres
        rcases hmiss with h | h | h | h | h | h | h | h | h | h
        · exact n1 h
        · exact n2 h
        · exact n3 h
        · exact n4 h
        · exact n5 h
        · exact n6 h
        · exact n7 h
        · exact n8 h
        · exact n9 h
        · rw [h] at hts; cases hts
    | error e =>
        obtain ⟨f, hf⟩ := deserializeBody_error_shape b e hres
        subst hf
        exact ⟨f, rfl⟩
  · intro ms cs cis ss js aq lq oq cp s d hp
    simp [deserializeBody, bind, Except.bind, asStr, asFloat, asInt,
      asDatetime, hp]

/-- Witness for the amended C4: a body missing `merchant` is rejected
with a validation error, while the complete body with the negative
amount is accepted. -/
theorem inputdata_validation_presence_only_witness :
    (∃ f, deserializeBody { negativeAmtBody with merchant := none } =
      Except.error (.validationError f)) ∧
    deserializeBody
      { merchant := some (.str "Walmart"), category := some (.str "groceries"),
        city := some (.str "Springfield"), state := some (.str "IL"),
        job := some (.str "Engineer"), amt := some (.num (-1)),
        lat := some (.num 39), long := some (.num (-89)),
        city_pop := some (.int 116250),
        trans_date_trans_time := some (.str "2025-12-04T14:30:00") } =
      Except.ok
      { merchant := "Walmart", category := "groceries", city := "Springfield",
        state := "IL", job := "Engineer", amt := -1, lat := 39, long := -89,
        city_pop := 116250,
        trans_date_trans_time := .dt ⟨2025, 12, 4, 14, 30, 0⟩ } := by
  refine ⟨inputdata_validation_presence_only.1
    { negativeAmtBody with merchant := none } (Or.inl rfl), ?_⟩
  exact inputdata_validation_presence_only.2 "Walmart" "groceries"
    "Springfield" "IL" "Engineer" (-1) 39 (-89) 116250
    "2025-12-04T14:30:00" ⟨2025, 12, 4, 14, 30, 0⟩ (by decide)

/-- C9: Because the request schema types the timestamp as a structured
date-time, an unparseable timestamp string in a request body is
rejected during request-body deserialization with status 422, before
`transform` runs (the step trace is empty); consequently, through the
public predict endpoint, the string-parsing branch of `transform` that
would signal InvalidInput is never reached: the endpoint never
produces an invalid-value error. -/
theorem endpoint_unparseable_timestamp_422 :
    ∀ (m : Option Model) (b : RawBody),
      (∀ s, b.trans_date_trans_time = some (.str s) → parseIso s = none →
        ∃ f, fullPredict m b = (Except.error (.validationError f), []) ∧
          (ApiError.validationError f).statusCode = 422) ∧
      (∀ detail, (fullPredict m b).1 ≠ Except.error (.invalidValue detail)) := by
  intro m b
  constructor
  · intro s hts hp
    cases hres : deserializeBody b with
    | ok r =>
        exfalso
        obtain ⟨-, -, -, -, -, -, -, -, -, s', d, hv, hp', -⟩ :=
          deserializeBody_ok_shape b r hres
        rw [hts] at hv
        obtain rfl : s = s' := by simpa using hv
        rw [hp] at hp'
        cases hp'
    | error e =>
        obtain ⟨f, hf⟩ := deserializeBody_error_shape b e hres
        refine ⟨f, ?_, rfl⟩
        unfold fullPredict
        rw [hres, hf]
  · intro detail hcon
    cases hres : deserializeBody b with
    | error e =>
        obtain ⟨f, hf⟩ := deserializeBody_error_shape b e hres
        unfold fullPredict at hcon
        rw [hres, hf] at hcon
        simp at hcon
    | ok r =>
        have hfull : fullPredict m b = predictHandler m r := by
          unfold fullPredict
          rw [hres]
        rw [hfull] at hcon
        obtain ⟨-, -, -, -, -, -, -, -, -, s', d, hv, hp', hrts⟩ :=
          deserializeBody_ok_shape b r hres
        cases m with
        | none => simp [predictHandler] at hcon
        | some mm =>
            have htr := transform_input_dt r d hrts
            unfold predictHandler at hcon
            rw [htr] at hcon
            simp only [] at hcon
            cases hsel : selectColumns
                (featuresDict
                  { merchant := r.merchant, category := r.category,
                    city := r.city, state := r.state, job := r.job,
                    amt := r.amt, lat := r.lat, long := r.long,
                    city_pop := r.city_pop, trans_hour := d.hour,
                    trans_day := d.day, trans_month := d.month,
                    trans_weekday := d.weekday })
                mm.feature_names_in_ with
            | error miss => rw [hsel] at hcon; simp at hcon
            | ok v => rw [hsel] at hcon; simp at hcon

/-- Witness for C9: the body whose timestamp string "12/04/2025 14:30"
is not ISO-8601 is rejected with 422 and an empty step trace, and the
endpoint on the example body never reports an invalid-value error. -/
theorem endpoint_unparseable_timestamp_422_witness :
    (∃ f, fullPredict none badTimestampBody =
        (Except.error (.validationError f), []) ∧
      (ApiError.validationError f).statusCode = 422) ∧
    (fullPredict none negativeAmtBody).1 ≠
      Except.error (.invalidValue "boom") := by
  exact ⟨(endpoint_unparseable_timestamp_422 none badTimestampBody).1
      "12/04/2025 14:30" rfl (by decide),
    (endpoint_unparseable_timestamp_422 none negativeAmtBody).2 "boom"⟩

end Fraud
